import Mathlib

/-!
Shallow embedding of the uhmactually validation library (the
`uhmactually/core.py` pipeline and the validator catalog under
`uhmactually/validators/core/`), together with theorems settling the
frozen claims about it.

Conventions of the embedding:
* Python values are the inductive `PyValue`; Python `int` is `Int`
  (floats do not occur in any claim and are omitted from the value
  domain; `isinstance(v, (int, float))` is `PyValue.isNumber`, which is
  true for `int` and `bool` values exactly as Python's `isinstance`
  is, `bool` being a subclass of `int`).
* A raised Python exception is `Except.error (e : PyErr)`; normal
  return is `Except.ok`.  `ValidationError` carries the `message`,
  `field` and `value` constructor arguments; the `source_info` and
  `parent_object` diagnostic payloads (strings rendered from the call
  site) are not modelled, no claim mentions them.
* `ValidationResult` is its error list; `is_valid` is emptiness
  (core.py line 83).
* Regular-expression matching (the `re` module) is external to the
  repository; a `PatternValidator` therefore carries the match
  function `re.match(pattern, ·)` as data next to the pattern text.
-/

set_option linter.unusedVariables false

namespace Uhm

/-- Python values, restricted to the shapes the validation core
manipulates.  `model` is a `ValidatedModel` instance of a named model
class holding its `_data` mapping (declaration-ordered association
list; Python dicts preserve insertion order and have unique keys). -/
inductive PyValue : Type where
  | none : PyValue
  | bool (b : Bool) : PyValue
  | int (n : Int) : PyValue
  | str (s : String) : PyValue
  | list (xs : List PyValue) : PyValue
  | tuple (xs : List PyValue) : PyValue
  | set (xs : List PyValue) : PyValue
  | dict (entries : List (String × PyValue)) : PyValue
  | model (cls : String) (data : List (String × PyValue)) : PyValue

/-- `value is None`. -/
def PyValue.isNone : PyValue → Bool
  | .none => true
  | _ => false

/-- `type(value).__name__` for the embedded value domain. -/
def pyTypeName : PyValue → String
  | .none => "NoneType"
  | .bool _ => "bool"
  | .int _ => "int"
  | .str _ => "str"
  | .list _ => "list"
  | .tuple _ => "tuple"
  | .set _ => "set"
  | .dict _ => "dict"
  | .model cls _ => cls

mutual

/-- Python `repr` of a value (used inside container renderings of
`str`).  A model instance has no `__repr__` override in the source, so
its rendering contains a memory address; we render a stable
address-free form, no theorem below inspects such a rendering. -/
def pyRepr : PyValue → String
  | .none => "None"
  | .bool b => if b then "True" else "False"
  | .int n => toString n
  | .str s => "'" ++ s ++ "'"
  | .list xs => "[" ++ String.intercalate ", " (pyReprList xs) ++ "]"
  | .tuple [x] => "(" ++ pyRepr x ++ ",)"
  | .tuple xs => "(" ++ String.intercalate ", " (pyReprList xs) ++ ")"
  | .set [] => "set()"
  | .set xs => "\x7b" ++ String.intercalate ", " (pyReprList xs) ++ "\x7d"
  | .dict entries =>
      "\x7b" ++ String.intercalate ", " (pyReprEntries entries) ++ "\x7d"
  | .model cls _ => "<" ++ cls ++ " object>"

def pyReprList : List PyValue → List String
  | [] => []
  | x :: rest => pyRepr x :: pyReprList rest

def pyReprEntries : List (String × PyValue) → List String
  | [] => []
  | (k, v) :: rest => ("'" ++ k ++ "': " ++ pyRepr v) :: pyReprEntries rest

end

/-- Python `str` of a value: identity on strings, `repr` recursively
inside containers, `repr`-like rendering elsewhere. -/
def pyStr : PyValue → String
  | .str s => s
  | v => pyRepr v

/-- `TypeValidator._get_value_repr` (validator_type.py lines 392-410):
`str(value)` truncated to 100 characters with a `"..."` tail. -/
def getValueRepr (v : PyValue) : String :=
  let s := pyStr v
  if s.length > 100 then (s.take 97) ++ "..." else s

/-- A `ValidationError` as constructed by the source: positional
`message`, `field` and `value` arguments (core.py lines 22-34). -/
structure VErr : Type where
  message : String
  field : Option String := Option.none
  value : Option PyValue := Option.none

/-- Python exceptions the pipeline can raise. -/
inductive PyErr : Type where
  /-- a raised `ValidationError` -/
  | validation (e : VErr) : PyErr
  /-- `ValueError(msg)` -/
  | valueError (msg : String) : PyErr
  /-- `AttributeError` on a missing attribute of the given name -/
  | attributeError (attr : String) : PyErr
  /-- `TypeError`, e.g. instantiating a validator class without its
  required constructor arguments -/
  | typeError (msg : String) : PyErr
  /-- the `from_json` text-coercion path (validator_type.py line 185):
  its outcome is decided by the external `json` decoder, which is
  outside the embedded scope; no theorem exercises this branch -/
  | jsonCoercion (s : String) : PyErr

/-- `ValidationResult` is its `errors` list; `is_valid` ⇔ empty
(core.py lines 72-83). -/
abbrev ValidationResult := List VErr

/-- `isinstance(value, (int, float))`: `bool` is a subclass of `int`
in Python, floats are absent from the embedded value domain. -/
def PyValue.isNumber : PyValue → Bool
  | .int _ => true
  | .bool _ => true
  | _ => false

/-- The numeric content of an `int`-kinded value (`True == 1`,
`False == 0` in Python). -/
def PyValue.asInt : PyValue → Int
  | .int n => n
  | .bool b => if b then 1 else 0
  | _ => 0

/-! ## Numeric bound validators (validators/core/validator_number.py) -/

/-- Configuration of `MinValidator` (lines 132-144). -/
structure MinValidator : Type where
  min_value : Int
  inclusive : Bool := true
  deriving Repr, DecidableEq

/-- `MinValidator.validate` (lines 146-210). -/
def MinValidator.validate (self : MinValidator) (value : PyValue)
    (field_name : String) : ValidationResult :=
  -- Skip validation if value is None
  if value.isNone then []
  -- Ensure value is a number
  else if ¬ value.isNumber then
    [⟨"Expected a number for field '" ++ field_name ++ "', got " ++
        pyTypeName value, some field_name, some value⟩]
  else if self.inclusive then
    if value.asInt < self.min_value then
      [⟨"Value " ++ pyStr value ++ " is less than the minimum value of " ++
          toString self.min_value, some field_name, some value⟩]
    else []
  else
    if value.asInt ≤ self.min_value then
      [⟨"Value " ++ pyStr value ++
          " is less than or equal to the minimum value of " ++
          toString self.min_value ++ " (exclusive)",
        some field_name, some value⟩]
    else []

/-- Configuration of `MaxValidator` (lines 238-250). -/
structure MaxValidator : Type where
  max_value : Int
  inclusive : Bool := true
  deriving Repr, DecidableEq

/-- `MaxValidator.validate` (lines 252-316). -/
def MaxValidator.validate (self : MaxValidator) (value : PyValue)
    (field_name : String) : ValidationResult :=
  if value.isNone then []
  else if ¬ value.isNumber then
    [⟨"Expected a number for field '" ++ field_name ++ "', got " ++
        pyTypeName value, some field_name, some value⟩]
  else if self.inclusive then
    if value.asInt > self.max_value then
      [⟨"Value " ++ pyStr value ++ " exceeds the maximum value of " ++
          toString self.max_value, some field_name, some value⟩]
    else []
  else
    if value.asInt ≥ self.max_value then
      [⟨"Value " ++ pyStr value ++
          " is greater than or equal to the maximum value of " ++
          toString self.max_value ++ " (exclusive)",
        some field_name, some value⟩]
    else []

/-- Configuration of `RangeValidator` (lines 344-366). -/
structure RangeValidator : Type where
  min_value : Int
  max_value : Int
  min_inclusive : Bool := true
  max_inclusive : Bool := true
  deriving Repr, DecidableEq

/-- `RangeValidator.validate` (lines 368-439). -/
def RangeValidator.validate (self : RangeValidator) (value : PyValue)
    (field_name : String) : ValidationResult :=
  if value.isNone then []
  else if ¬ value.isNumber then
    [⟨"Expected a number for field '" ++ field_name ++ "', got " ++
        pyTypeName value, some field_name, some value⟩]
  else
    let min_check : Bool :=
      if self.min_inclusive then value.asInt ≥ self.min_value
      else value.asInt > self.min_value
    let max_check : Bool :=
      if self.max_inclusive then value.asInt ≤ self.max_value
      else value.asInt < self.max_value
    (if ¬ min_check then
      let min_op := if self.min_inclusive then ">=" else ">"
      [⟨"Value " ++ pyStr value ++ " must be " ++ min_op ++ " " ++
          toString self.min_value, some field_name, some value⟩]
     else []) ++
    (if ¬ max_check then
      let max_op := if self.max_inclusive then "<=" else "<"
      [⟨"Value " ++ pyStr value ++ " must be " ++ max_op ++ " " ++
          toString self.max_value, some field_name, some value⟩]
     else [])

/-! ## String validators (validators/core/validator_string.py) -/

/-- `MinLengthValidator.validate` (lines 232-296); the configuration is
the `min_length` constructor argument (a Python int). -/
def minLengthValidate (min_length : Int) (value : PyValue)
    (field_name : String) : ValidationResult :=
  if value.isNone then []
  else
    match value with
    | .str s =>
      if (s.length : Int) < min_length then
        [⟨"String length " ++ toString s.length ++
            " is less than the minimum length of " ++ toString min_length,
          some field_name, some value⟩]
      else []
    | v =>
      [⟨"Expected a string for field '" ++ field_name ++ "', got " ++
          pyTypeName v, some field_name, some v⟩]

/-- `MaxLengthValidator.validate` (lines 324-388). -/
def maxLengthValidate (max_length : Int) (value : PyValue)
    (field_name : String) : ValidationResult :=
  if value.isNone then []
  else
    match value with
    | .str s =>
      if (s.length : Int) > max_length then
        [⟨"String length " ++ toString s.length ++
            " exceeds the maximum length of " ++ toString max_length,
          some field_name, some value⟩]
      else []
    | v =>
      [⟨"Expected a string for field '" ++ field_name ++ "', got " ++
          pyTypeName v, some field_name, some v⟩]

/-- `LengthRangeValidator.validate` (lines 416-490): minimum checked
first, the maximum only in the `elif`. -/
def lengthRangeValidate (min_length max_length : Int) (value : PyValue)
    (field_name : String) : ValidationResult :=
  if value.isNone then []
  else
    match value with
    | .str s =>
      if (s.length : Int) < min_length then
        [⟨"String length " ++ toString s.length ++
            " is less than the minimum length of " ++ toString min_length,
          some field_name, some value⟩]
      else if (s.length : Int) > max_length then
        [⟨"String length " ++ toString s.length ++
            " exceeds the maximum length of " ++ toString max_length,
          some field_name, some value⟩]
      else []
    | v =>
      [⟨"Expected a string for field '" ++ field_name ++ "', got " ++
          pyTypeName v, some field_name, some v⟩]

/-- `PatternValidator` (lines 520-583): `pattern` is the source text of
the compiled regular expression, `re_match` is the external
`re` engine's `pattern.match` predicate carried as data. -/
structure PatternValidator : Type where
  pattern : String
  re_match : String → Bool

/-- `PatternValidator.validate` (lines 532-583). -/
def PatternValidator.validate (self : PatternValidator) (value : PyValue)
    (field_name : String) : ValidationResult :=
  if value.isNone then []
  else
    match value with
    | .str s =>
      if ¬ self.re_match s then
        [⟨"String '" ++ s ++ "' does not match the pattern '" ++
            self.pattern ++ "'", some field_name, some value⟩]
      else []
    | v =>
      [⟨"Expected a string for field '" ++ field_name ++ "', got " ++
          pyTypeName v, some field_name, some v⟩]

/-- Python's `needle in haystack` on strings. -/
def strContains (haystack needle : String) : Bool :=
  decide (needle.toList <:+: haystack.toList)

/-- `ContainsValidator` configuration (lines 612-624). -/
structure ContainsValidator : Type where
  substring : String
  case_sensitive : Bool := true

/-- `ContainsValidator.validate` (lines 626-685). -/
def ContainsValidator.validate (self : ContainsValidator) (value : PyValue)
    (field_name : String) : ValidationResult :=
  if value.isNone then []
  else
    match value with
    | .str s =>
      if self.case_sensitive then
        if ¬ strContains s self.substring then
          [⟨"String '" ++ s ++ "' does not contain the substring '" ++
              self.substring ++ "'", some field_name, some value⟩]
        else []
      else
        if ¬ strContains s.toLower self.substring.toLower then
          [⟨"String '" ++ s ++ "' does not contain the substring '" ++
              self.substring ++ "' (case-insensitive)",
            some field_name, some value⟩]
        else []
    | v =>
      [⟨"Expected a string for field '" ++ field_name ++ "', got " ++
          pyTypeName v, some field_name, some v⟩]

/-- `StartsWithValidator` configuration (lines 718-731). -/
structure StartsWithValidator : Type where
  prefixStr : String
  case_sensitive : Bool := true

/-- `StartsWithValidator.validate` (lines 732-822). -/
def StartsWithValidator.validate (self : StartsWithValidator)
    (value : PyValue) (field_name : String) : ValidationResult :=
  if value.isNone then []
  else
    match value with
    | .str s =>
      if self.case_sensitive then
        if ¬ self.prefixStr.isPrefixOf s then
          [⟨"String '" ++ s ++ "' does not start with '" ++
              self.prefixStr ++ "'", some field_name, some value⟩]
        else []
      else
        if ¬ self.prefixStr.toLower.isPrefixOf s.toLower then
          [⟨"String '" ++ s ++ "' does not start with '" ++
              self.prefixStr ++ "' (case-insensitive)",
            some field_name, some value⟩]
        else []
    | v =>
      [⟨"Expected a string for field '" ++ field_name ++ "', got " ++
          pyTypeName v, some field_name, some v⟩]

/-- Python `value.endswith(suffix)`. -/
def strEndsWith (s suffix : String) : Bool :=
  decide (suffix.toList <:+ s.toList)

/-- `EndsWithValidator` configuration (lines 824-837). -/
structure EndsWithValidator : Type where
  suffix : String
  case_sensitive : Bool := true

/-- `EndsWithValidator.validate` (lines 838-928). -/
def EndsWithValidator.validate (self : EndsWithValidator)
    (value : PyValue) (field_name : String) : ValidationResult :=
  if value.isNone then []
  else
    match value with
    | .str s =>
      if self.case_sensitive then
        if ¬ strEndsWith s self.suffix then
          [⟨"String '" ++ s ++ "' does not end with '" ++
              self.suffix ++ "'", some field_name, some value⟩]
        else []
      else
        if ¬ strEndsWith s.toLower self.suffix.toLower then
          [⟨"String '" ++ s ++ "' does not end with '" ++
              self.suffix ++ "' (case-insensitive)",
            some field_name, some value⟩]
        else []
    | v =>
      [⟨"Expected a string for field '" ++ field_name ++ "', got " ++
          pyTypeName v, some field_name, some v⟩]

/-! ## Python equality (`==`) on the embedded value domain

Used by membership tests (`value in allowed_values`).  Numbers compare
by numeric value (`True == 1` in Python).  Two deliberate
approximations, neither reachable from any theorem below: Python's
set/dict equality is order-insensitive where this comparison is
order-sensitive, and a model value compares by class and data rather
than through `ValidatedModel.__eq__`'s `to_dict` conversion (instance
equality at the claim level is a separate definition, `instanceEqb`
below, that does follow `__eq__`). -/

mutual

def pyEqb : PyValue → PyValue → Bool
  | .none, .none => true
  | .str s, .str t => s == t
  | .list xs, .list ys => pyEqbList xs ys
  | .tuple xs, .tuple ys => pyEqbList xs ys
  | .set xs, .set ys => pyEqbList xs ys
  | .dict xs, .dict ys => pyEqbEntries xs ys
  | .model c d, .model c₂ d₂ => c == c₂ && pyEqbEntries d d₂
  | a, b => a.isNumber && b.isNumber && a.asInt == b.asInt

def pyEqbList : List PyValue → List PyValue → Bool
  | [], [] => true
  | x :: xs, y :: ys => pyEqb x y && pyEqbList xs ys
  | _, _ => false

def pyEqbEntries : List (String × PyValue) → List (String × PyValue) → Bool
  | [], [] => true
  | (k, v) :: xs, (k₂, v₂) :: ys => k == k₂ && pyEqb v v₂ && pyEqbEntries xs ys
  | _, _ => false

end

/-- Python `value in values` (membership by `==`). -/
def pyMem (v : PyValue) (values : List PyValue) : Bool :=
  values.any (pyEqb v)

/-! ## Membership validators (validators/core/validator_enum.py) -/

/-- `EnumValidator` configuration (lines 104-125): `allowed_values` is
`Any` (`Option.none` here, the constructor default) or the list the
constructor built from the given collection or enum class. -/
structure EnumValidator : Type where
  allowed_values : Option (List PyValue) := Option.none
  case_sensitive : Bool := true

/-- `EnumValidator.validate` (lines 127-182). -/
def EnumValidator.validate (self : EnumValidator) (value : PyValue)
    (field_name : String) : ValidationResult :=
  -- Skip validation if value is None or if allowed_values is Any
  match self.allowed_values with
  | Option.none => []
  | some allowed =>
    if value.isNone then []
    else
      match value with
      | .str s =>
        if ¬ self.case_sensitive then
          if ¬ allowed.any (fun a =>
              match a with
              | .str t => t.toLower == s.toLower
              | _ => false) then
            [⟨"Value '" ++ s ++ "' is not in the set of allowed values: " ++
                String.intercalate ", " (allowed.map pyRepr) ++
                " (case-insensitive)", some field_name, some value⟩]
          else []
        else
          if ¬ pyMem value allowed then
            [⟨"Value '" ++ s ++ "' is not in the set of allowed values: " ++
                String.intercalate ", " (allowed.map pyRepr),
              some field_name, some value⟩]
          else []
      | v =>
        if ¬ pyMem v allowed then
          [⟨"Value '" ++ pyStr v ++
              "' is not in the set of allowed values: " ++
              String.intercalate ", " (allowed.map pyRepr),
            some field_name, some v⟩]
        else []

/-- `NotInValidator` configuration (lines 210-233): `disallowed_values`
defaults to the empty list. -/
structure NotInValidator : Type where
  disallowed_values : List PyValue := []
  case_sensitive : Bool := true

/-- `NotInValidator.validate` (lines 235-291). -/
def NotInValidator.validate (self : NotInValidator) (value : PyValue)
    (field_name : String) : ValidationResult :=
  -- Skip validation if value is None or if disallowed_values is empty
  if value.isNone || self.disallowed_values.isEmpty then []
  else
    match value with
    | .str s =>
      if ¬ self.case_sensitive then
        if self.disallowed_values.any (fun d =>
            match d with
            | .str t => t.toLower == s.toLower
            | _ => false) then
          [⟨"Value '" ++ s ++ "' is in the set of disallowed values: " ++
              String.intercalate ", " (self.disallowed_values.map pyRepr) ++
              " (case-insensitive)", some field_name, some value⟩]
        else []
      else
        if pyMem value self.disallowed_values then
          [⟨"Value '" ++ s ++ "' is in the set of disallowed values: " ++
              String.intercalate ", " (self.disallowed_values.map pyRepr),
            some field_name, some value⟩]
        else []
    | v =>
      if pyMem v self.disallowed_values then
        [⟨"Value '" ++ pyStr v ++
            "' is in the set of disallowed values: " ++
            String.intercalate ", " (self.disallowed_values.map pyRepr),
          some field_name, some v⟩]
      else []

/-- `EnumClassValidator` configuration (lines 319-330): the enum class
is its name and the list of its member values; `enum_class(value)`
raises `ValueError` exactly when `value` is not among them. -/
structure EnumClassValidator : Type where
  enum_name : String
  member_values : List PyValue

/-- `EnumClassValidator.validate` (lines 331-373). -/
def EnumClassValidator.validate (self : EnumClassValidator)
    (value : PyValue) (field_name : String) : ValidationResult :=
  if value.isNone then []
  else
    if ¬ pyMem value self.member_values then
      [⟨"Value '" ++ pyStr value ++ "' is not a valid " ++ self.enum_name ++
          " value. Valid values are: " ++
          String.intercalate ", " (self.member_values.map pyRepr),
        some field_name, some value⟩]
    else []

/-! ## Type annotations (the shapes `TypeValidator` dispatches on) -/

/-- A field's return-type annotation as `get_origin`/`get_args`
dissect it: primitives, `typing` containers, `Union` (with `NoneType`
as `noneT` among the alternatives for `Optional`), and model-class
references.  `listT Option.none` is a bare `List` with no argument. -/
inductive TypeAnnot : Type where
  | any : TypeAnnot
  | intT : TypeAnnot
  | strT : TypeAnnot
  | boolT : TypeAnnot
  | noneT : TypeAnnot
  | listT (elem : Option TypeAnnot) : TypeAnnot
  | dictT (key : TypeAnnot) (val : TypeAnnot) : TypeAnnot
  | tupleT (elems : List TypeAnnot) : TypeAnnot
  | setT (elem : Option TypeAnnot) : TypeAnnot
  | unionT (alts : List TypeAnnot) : TypeAnnot
  | modelT (cls : String) : TypeAnnot

/-- Whether the annotation is `type(None)`. -/
def TypeAnnot.isNoneT : TypeAnnot → Bool
  | .noneT => true
  | _ => false

/-- Whether the annotation is `typing.Any`. -/
def TypeAnnot.isAny : TypeAnnot → Bool
  | .any => true
  | _ => false

mutual

/-- The name an annotation shows in error messages
(`arg.__name__ if hasattr(arg, "__name__") else str(arg)`).  Generic
aliases are rendered in the `typing` module's `str()` form; only
scalar and model-class names occur in any theorem below. -/
def TypeAnnot.typeName : TypeAnnot → String
  | .any => "Any"
  | .intT => "int"
  | .strT => "str"
  | .boolT => "bool"
  | .noneT => "NoneType"
  | .listT Option.none => "typing.List"
  | .listT (some e) => "typing.List[" ++ e.typeName ++ "]"
  | .dictT k v => "typing.Dict[" ++ k.typeName ++ ", " ++ v.typeName ++ "]"
  | .tupleT es =>
      "typing.Tuple[" ++ String.intercalate ", " (typeNameList es) ++ "]"
  | .setT Option.none => "typing.Set"
  | .setT (some e) => "typing.Set[" ++ e.typeName ++ "]"
  | .unionT as =>
      "typing.Union[" ++ String.intercalate ", " (typeNameList as) ++ "]"
  | .modelT cls => cls

def typeNameList : List TypeAnnot → List String
  | [] => []
  | a :: rest => a.typeName :: typeNameList rest

end

mutual

/-- `TypeValidator.is_of_type` (validator_type.py lines 412-448):
`Any` accepts everything; a `Union` accepts what any alternative
accepts; a generic container checks only the container kind; anything
else is an `isinstance` check (nominal for model classes, and an `int`
annotation accepts `bool` values, `bool` being a subclass of `int`). -/
def isOfType (v : PyValue) : TypeAnnot → Bool
  | .any => true
  | .intT => v.isNumber
  | .strT => match v with | .str _ => true | _ => false
  | .boolT => match v with | .bool _ => true | _ => false
  | .noneT => v.isNone
  | .unionT alts => isOfTypeAny v alts
  | .listT _ => match v with | .list _ => true | _ => false
  | .dictT _ _ => match v with | .dict _ => true | _ => false
  | .tupleT _ => match v with | .tuple _ => true | _ => false
  | .setT _ => match v with | .set _ => true | _ => false
  | .modelT cls => match v with | .model c _ => c == cls | _ => false

def isOfTypeAny (v : PyValue) : List TypeAnnot → Bool
  | [] => false
  | a :: rest => isOfType v a || isOfTypeAny v rest

end

/-- `is_optional_field` of the `validate` decorator (core.py lines
196-197): the annotation is a `Union` with `NoneType` among its
arguments.  `Option.none` stands for a plain `-> None` annotation, for
which `get_origin` is not `Union`. -/
def isOptionalField : Option TypeAnnot → Bool
  | some (.unionT alts) => alts.any fun a => a.isNoneT
  | _ => false

/-! ## Field declarations and model classes

A `@validate`-decorated field method contributes, through the wrapper
and the attributes the decorators attach to it:
* its return annotation (`retAnn`; `Option.none` is a plain
  `-> None` annotation, for which the wrapper skips `type_check`),
* the decorator's `is_optional` flag as the wrapper closure sees it,
* the truthiness of `_skip_validators` (read only by
  `_validate_field`),
* the validator class and constructor arguments stored on the method
  by an explicitly attached validator decorator (`_validator_class`,
  `_validator_args`/`_validator_kwargs`; a single slot, read only by
  `_validate_field`),
* the method's own body (`body`), run by the wrapper on the stored
  value — custom in-body checks raise `ValidationError` on failure.
-/

/-- An explicitly attached validator: the class stored in
`_validator_class` together with its constructor arguments. -/
inductive ValidatorSpec : Type where
  | optionalV (is_optional : Bool) : ValidatorSpec
  | typeV (expected : Option TypeAnnot) : ValidatorSpec
  | instanceV (cls : Option String) : ValidatorSpec
  | minV (v : MinValidator) : ValidatorSpec
  | maxV (v : MaxValidator) : ValidatorSpec
  | rangeV (v : RangeValidator) : ValidatorSpec
  | minLengthV (min_length : Int) : ValidatorSpec
  | maxLengthV (max_length : Int) : ValidatorSpec
  | lengthRangeV (min_length max_length : Int) : ValidatorSpec
  | patternV (v : PatternValidator) : ValidatorSpec
  | containsV (v : ContainsValidator) : ValidatorSpec
  | startsWithV (v : StartsWithValidator) : ValidatorSpec
  | endsWithV (v : EndsWithValidator) : ValidatorSpec
  | enumV (v : EnumValidator) : ValidatorSpec
  | notInV (v : NotInValidator) : ValidatorSpec
  | enumClassV (v : EnumClassValidator) : ValidatorSpec

/-- A field declaration (see the section comment above). -/
structure FieldDecl : Type where
  retAnn : Option TypeAnnot
  is_optional : Bool := false
  skip_validators : Bool := false
  explicit : Option ValidatorSpec := Option.none
  body : Option (PyValue → Except PyErr Unit) := Option.none

/-- A model class: its `@validate` fields in declaration order. -/
abbrev ModelClass := List (String × FieldDecl)

/-- The class table: model classes by name (Python resolves a
`ModelRef` annotation to the class object; the embedding resolves it
here).  A name not in the table resolves to a class with no validated
fields. -/
abbrev Env := List (String × ModelClass)

/-- Resolve a model class name. -/
def Env.findClass (env : Env) (name : String) : ModelClass :=
  (env.lookup name).getD []

/-- Look up a field declaration (`hasattr(self, name)` together with
the `_requires_validation`/`_validate_decorated` marks). -/
def ModelClass.findField (cls : ModelClass) (name : String) :
    Option FieldDecl :=
  cls.lookup name

/-- A `ValidatedModel` instance: its class name and its `_data`
attribute; `dataAttr = Option.none` models an instance on which
`__init__` never created `_data` (the mapping-constructor path). -/
structure Instance : Type where
  cls : String
  dataAttr : Option (List (String × PyValue))

/-- `OptionalValidator.validate` (validator_core.py lines 51-83): with
`is_optional` false it RAISES on a `None` value rather than returning
a failed result. -/
def optionalValidatorValidate (is_optional : Bool) (value : PyValue)
    (field_name : String) : Except PyErr ValidationResult :=
  if is_optional then .ok []
  else if value.isNone then
    .error (.validation
      ⟨"Value is not optional by default and was found to be None",
        some field_name, some value⟩)
  else .ok []

/-- `OptionalValidator.default` (validator_core.py lines 85-115): it
raises on a `None` value — without consulting `is_optional` — and
returns an empty result otherwise. -/
def optionalValidatorDefault (value : PyValue) (field_name : String) :
    Except PyErr ValidationResult :=
  if value.isNone then
    .error (.validation
      ⟨"Value is not optional by default and was found to be None",
        some field_name, some value⟩)
  else .ok []

/-- `optional_check` (validator_core.py lines 119-144): runs
`OptionalValidator().validate` — whose raise propagates — on the value
under the caller's field name. -/
def optionalCheck (field_name : String) (value : PyValue) :
    Except PyErr Unit := do
  let result ← optionalValidatorValidate false value field_name
  -- `if not result.is_valid: raise ...` — unreachable: a `None` value
  -- already raised inside `validate`
  match result with
  | [] => pure ()
  | e :: _ => .error (.validation ⟨e.message, some field_name, some value⟩)

/-- `str(type(item))`, as rendered into the `ValueError` of the
nested-model coercion branch. -/
def pyClassRepr (v : PyValue) : String :=
  "<class '" ++ pyTypeName v ++ "'>"

/-- The set-branch element check (lines 301-316). -/
def setItemErrors (elemAnn : Option TypeAnnot) (field_name : String)
    (xs : List PyValue) : List VErr :=
  match elemAnn with
  | Option.none => []
  | some e =>
    if e.isAny then []
    else xs.filterMap fun item =>
      if ¬ isOfType item e then
        some ⟨"Set item expected to be " ++ e.typeName ++ ", got " ++
            pyTypeName item ++ " with value: " ++ getValueRepr item,
          some field_name, some item⟩
      else Option.none

mutual

/-- `TypeValidator.validate` (validator_type.py lines 69-336) with the
expected type taken from the constructor argument; returns the
result's error list, or propagates an exception raised inside the
nested-model coercion branch. -/
def typeCheckErrors (env : Env) (expected : Option TypeAnnot)
    (field_name : String) (value : PyValue) : Except PyErr (List VErr) :=
  match expected with
  -- line 90: skip if no expected type or the value is None
  | Option.none => .ok []
  | some ann =>
    if value.isNone then .ok []
    else
      match ann with
      -- line 97: Any matches everything
      | .any => .ok []
      -- lines 101-137: Union — first matching alternative wins
      | .unionT alts => do
        let matched ← unionFirst env alts field_name value
        if matched then .ok []
        else
          .ok [⟨"Expected one of types (" ++
              String.intercalate ", "
                (typeNameList (alts.filter fun a => ¬ a.isNoneT)) ++
              "), got " ++ pyTypeName value ++ " with value: " ++
              getValueRepr value, some field_name, some value⟩]
      -- lines 140-197: List
      | .listT elemAnn =>
        match value with
        | .list xs =>
          match elemAnn with
          | Option.none => .ok []
          | some e =>
            if e.isAny then .ok []
            else typeCheckList env e field_name xs 0
        | v =>
          .ok [⟨"Expected type list, got " ++ pyTypeName v ++
              " with value: " ++ getValueRepr v, some field_name, some v⟩]
      -- lines 200-240: Dict — all key errors, then all value errors
      | .dictT keyAnn valAnn =>
        match value with
        | .dict entries =>
          let keyErrs :=
            if keyAnn.isAny then []
            else entries.filterMap fun p =>
              if ¬ isOfType (.str p.1) keyAnn then
                some ⟨"Dict key expected to be " ++ keyAnn.typeName ++
                    ", got str with value: " ++ getValueRepr (.str p.1),
                  some field_name, some (.str p.1)⟩
              else Option.none
          let valErrs :=
            if valAnn.isAny then []
            else entries.filterMap fun p =>
              if ¬ isOfType p.2 valAnn then
                some ⟨"Dict value for key '" ++ p.1 ++
                    "' expected to be " ++ valAnn.typeName ++ ", got " ++
                    pyTypeName p.2 ++ " with value: " ++ getValueRepr p.2,
                  some field_name, some p.2⟩
              else Option.none
          .ok (keyErrs ++ valErrs)
        | v =>
          .ok [⟨"Expected type dict, got " ++ pyTypeName v ++
              " with value: " ++ getValueRepr v, some field_name, some v⟩]
      -- lines 243-285: Tuple — exact arity, then per-position checks
      | .tupleT elems =>
        match value with
        | .tuple xs =>
          if elems.isEmpty then .ok []
          else if xs.length ≠ elems.length then
            .ok [⟨"Expected tuple of length " ++ toString elems.length ++
                ", got length " ++ toString xs.length,
              some field_name, some (.tuple xs)⟩]
          else
            .ok ((List.zip xs elems).enum.filterMap fun p =>
              if ¬ p.2.2.isAny ∧ ¬ isOfType p.2.1 p.2.2 then
                some ⟨"Tuple item at index " ++ toString p.1 ++
                    " expected to be " ++ p.2.2.typeName ++ ", got " ++
                    pyTypeName p.2.1 ++ " with value: " ++
                    getValueRepr p.2.1, some field_name, some p.2.1⟩
              else Option.none)
        | v =>
          .ok [⟨"Expected type tuple, got " ++ pyTypeName v ++
              " with value: " ++ getValueRepr v, some field_name, some v⟩]
      -- lines 288-316: Set — a set or a list is accepted
      | .setT elemAnn =>
        match value with
        | .set xs => .ok (setItemErrors elemAnn field_name xs)
        | .list xs => .ok (setItemErrors elemAnn field_name xs)
        | v =>
          .ok [⟨"Expected type set, got " ++ pyTypeName v ++
              " with value: " ++ getValueRepr v, some field_name, some v⟩]
      -- lines 319-334: every remaining annotation is one isinstance test
      | other =>
        if ¬ isOfType value other then
          .ok [⟨"Expected type " ++ other.typeName ++ ", got " ++
              pyTypeName value ++ " with value: " ++ getValueRepr value,
            some field_name, some value⟩]
        else .ok []
termination_by (sizeOf value, 2, sizeOf expected)

/-- The Union loop of `TypeValidator.validate` (lines 111-118): does
some alternative validate cleanly?  An exception raised by an
alternative's recursive validation propagates. -/
def unionFirst (env : Env) (alts : List TypeAnnot) (field_name : String)
    (value : PyValue) : Except PyErr Bool :=
  match alts with
  | [] => .ok false
  | a :: rest =>
    -- `types_to_check` drops `NoneType` (line 110); skipping it inside
    -- the loop iterates the same alternatives
    if a.isNoneT then unionFirst env rest field_name value
    else do
      let r ← typeCheckErrors env (some a) field_name value
      if r.isEmpty then .ok true
      else unionFirst env rest field_name value
termination_by (sizeOf value, 2, sizeOf alts + 1)

/-- The element loop of the List branch (lines 157-197): an
`is_of_type` error per mismatched element and, when the element type
is a model class, coercion plus nested validation of each element
(whose failures raise — `validate` never returns a failed result, so
the `remapped_item.errors` append on line 196 contributes nothing). -/
def typeCheckList (env : Env) (elemAnn : TypeAnnot) (field_name : String)
    (items : List PyValue) (i : Nat) : Except PyErr (List VErr) :=
  match items with
  | [] => .ok []
  | item :: rest => do
    let headErrs :=
      if ¬ isOfType item elemAnn then
        [⟨"List item at index " ++ toString i ++ " expected to be " ++
            elemAnn.typeName ++ ", got " ++ pyTypeName item ++
            " with value: " ++ getValueRepr item,
          some field_name, some item⟩]
      else []
    let _ ←
      match elemAnn with
      | .modelT cls =>
        match item with
        | .model icls idata =>
          if icls == cls then do
            -- mapped_item.validate(raise_exception=False): failures raise
            validateFields env (env.findClass icls) idata
            pure ()
          else .error (.valueError ("Unexpected item type: " ++ pyClassRepr item))
        | .dict dd => do
          -- item_type.from_dict(item) constructs and validates, then
          -- the fresh instance is validated once more
          let _ ← initKwargs env cls dd
          validateFields env (env.findClass cls) dd
          pure ()
        | .str s => .error (.jsonCoercion s)
        | _ => .error (.valueError ("Unexpected item type: " ++ pyClassRepr item))
      | _ => pure ()
    let restErrs ← typeCheckList env elemAnn field_name rest (i + 1)
    pure (headErrs ++ restErrs)
termination_by (sizeOf items, 0, 0)

/-- The per-field loop shared by `__init__` (core.py lines 270-286)
and `validate` (lines 602-617): for each stored field that resolves to
a `@validate`-decorated method, call the wrapper on the stored value;
the first failure raises. -/
def validateFields (env : Env) (cls : ModelClass)
    (entries : List (String × PyValue)) : Except PyErr Unit :=
  match entries with
  | [] => .ok ()
  | (name, v) :: rest => do
    match cls.findField name with
    | some decl => wrapperCheck env decl name v
    | Option.none => pure ()   -- unknown field: stored, not validated
    validateFields env cls rest
termination_by (sizeOf entries, 4, 0)

/-- The `validate` decorator's wrapper (core.py lines 199-224), called
on a stored value: `type_check` against the return annotation when one
is present, `optional_check` unless the field is optional by flag or
by `Optional[...]` annotation, then the method's own body. -/
def wrapperCheck (env : Env) (decl : FieldDecl) (name : String)
    (data : PyValue) : Except PyErr Unit := do
  match decl.retAnn with
  | some ann => do
    -- type_check (validator_type.py lines 529-556): raise the first error
    let errs ← typeCheckErrors env (some ann) name data
    match errs with
    | [] => pure ()
    | e :: _ => .error (.validation ⟨e.message, some name, some data⟩)
  | Option.none => pure ()
  if ¬ decl.is_optional ∧ ¬ isOptionalField decl.retAnn then
    optionalCheck name data
  match decl.body with
  | some body => body data
  | Option.none => pure ()
termination_by (sizeOf data, 5, 0)

/-- The keyword-argument constructor path (core.py lines 263-299):
store all keyword arguments as `_data`, run the wrapper on each
declared field's value as it is stored, then (`validate_on_init`
defaults to true) run `validate(raise_exception=True)`, whose
returned result is always empty — failures raise out of the
constructor. -/
def initKwargs (env : Env) (clsName : String)
    (kwargs : List (String × PyValue)) : Except PyErr Instance := do
  validateFields env (env.findClass clsName) kwargs
  -- self.validate(raise_exception=True) re-runs the same per-field loop
  validateFields env (env.findClass clsName) kwargs
  pure ⟨clsName, some kwargs⟩
termination_by (sizeOf kwargs, 6, 0)

end

/-! ## Model-level entry points (core.py `ValidatedModel`) -/

/-- `ValidatedModel.validate` (core.py lines 589-623).  `result` is
created empty and never appended to; the per-field loop instead
re-raises the first field failure (line 612), so the method either
raises or returns an empty result — whatever `raise_exception` is.
Iterating `self._data` on an instance without the attribute raises
`AttributeError`. -/
def ValidatedModel.validate (env : Env) (self : Instance)
    (raise_exception : Bool := true) : Except PyErr ValidationResult := do
  match self.dataAttr with
  | Option.none => .error (.attributeError "_data")
  | some data => do
    let result : ValidationResult := []
    validateFields env (env.findClass self.cls) data
    -- line 620: `if raise_exception and not result.is_valid: raise ...`
    -- `result` is still empty here, so the branch is unreachable
    if raise_exception ∧ ¬ result.isEmpty then
      .error (.validation ⟨"validation failed", Option.none, Option.none⟩)
    else .ok result

/-- `ValidatedModel.from_dict` (core.py lines 688-692):
`cls(**data)`. -/
def ValidatedModel.from_dict (env : Env) (clsName : String)
    (data : List (String × PyValue)) : Except PyErr Instance :=
  initKwargs env clsName data

/-- `ValidatedModel.__init__` (core.py lines 243-299).  `posArg` is
the single positional mapping argument when one is given (the
`len(args) > 1` and non-dict `ValueError` guards concern call shapes
outside this signature).  On the mapping path the source runs
`self = self.from_dict(args[0]); return` (line 260): `from_dict`
builds and fully validates a fresh instance, but rebinding the local
name `self` discards it, and this instance's `_data` attribute is
never created. -/
def ValidatedModel.init (env : Env) (clsName : String)
    (posArg : Option (List (String × PyValue)))
    (kwargs : List (String × PyValue)) : Except PyErr Instance := do
  if posArg.isSome ∧ ¬ kwargs.isEmpty then
    .error (.valueError ("Positional and keyword arguments are not " ++
      "allowed together, use either a dictionary or named arguments"))
  else
    match posArg with
    | some d => do
      let _ ← ValidatedModel.from_dict env clsName d
      pure ⟨clsName, Option.none⟩
    | Option.none => initKwargs env clsName kwargs

mutual

/-- The entry map of `ValidatedModel.to_dict` (core.py lines
636-672): each stored value converted by the per-field rules. -/
def toDictEntries : List (String × PyValue) → List (String × PyValue)
  | [] => []
  | (n, v) :: rest => (n, toDictField v) :: toDictEntries rest

/-- One field's conversion (lines 642-670): a nested model becomes its
own `to_dict`; a list/dict/tuple/set converts its *direct* model
elements (deeper non-model structure is left as stored); anything else
is kept as stored. -/
def toDictField : PyValue → PyValue
  | .model _ d => .dict (toDictEntries d)
  | .list xs => .list (toDictShallow xs)
  | .dict es => .dict (toDictShallowEntries es)
  | .tuple xs => .tuple (toDictShallow xs)
  | .set xs => .set (toDictShallow xs)
  | v => v

/-- `item.to_dict() if isinstance(item, ValidatedModel) else item`
mapped over container elements. -/
def toDictShallow : List PyValue → List PyValue
  | [] => []
  | .model _ d :: rest => .dict (toDictEntries d) :: toDictShallow rest
  | v :: rest => v :: toDictShallow rest

/-- The dict-valued variant of the element conversion. -/
def toDictShallowEntries :
    List (String × PyValue) → List (String × PyValue)
  | [] => []
  | (k, .model _ d) :: rest =>
      (k, .dict (toDictEntries d)) :: toDictShallowEntries rest
  | (k, v) :: rest => (k, v) :: toDictShallowEntries rest

end

/-- `ValidatedModel.to_dict` on an instance: reading `self._data` on
the mapping-constructed instance raises `AttributeError`. -/
def ValidatedModel.to_dict (self : Instance) :
    Except PyErr (List (String × PyValue)) :=
  match self.dataAttr with
  | Option.none => .error (.attributeError "_data")
  | some data => .ok (toDictEntries data)

/-- `ValidatedModel.__eq__` (core.py lines 625-627):
`self.to_dict() == other.to_dict()`.  The dict comparison is Python
`==`; both operands here are built by `to_dict` in field-declaration
order, where entrywise comparison coincides with dict equality. -/
def ValidatedModel.eq (a b : Instance) : Except PyErr Bool := do
  let da ← ValidatedModel.to_dict a
  let db ← ValidatedModel.to_dict b
  pure (pyEqbEntries da db)

/-! ## `_validate_field` (core.py lines 301-587)

This per-field dispatcher is defined on `ValidatedModel` but never
called: `validate` and `__init__` go through the decorator wrappers
directly.  It is embedded because several claims cite it.  It iterates
the global `VALIDATORS` registry (validators/registry.py), which is
populated by the `@validator` class decorator; no class under
`validators/core/` carries that decorator, so in the running code the
registry is empty — the registry contents are therefore a parameter
here, ordered as a Python dict iterates (insertion order,
class-name keyed, hence duplicate-free). -/

/-- A registered validator kind (a `VALIDATORS` key). -/
inductive ValidatorKind : Type where
  | typeK | instanceK | optionalK | minK | maxK | rangeK
  | minLengthK | maxLengthK | lengthRangeK | patternK
  | containsK | startsWithK | endsWithK | enumK | notInK | enumClassK
  deriving DecidableEq, Repr

/-- The class an explicit attachment stores in `_validator_class`. -/
def ValidatorSpec.kind : ValidatorSpec → ValidatorKind
  | .optionalV _ => .optionalK
  | .typeV _ => .typeK
  | .instanceV _ => .instanceK
  | .minV _ => .minK
  | .maxV _ => .maxK
  | .rangeV _ => .rangeK
  | .minLengthV _ => .minLengthK
  | .maxLengthV _ => .maxLengthK
  | .lengthRangeV _ _ => .lengthRangeK
  | .patternV _ => .patternK
  | .containsV _ => .containsK
  | .startsWithV _ => .startsWithK
  | .endsWithV _ => .endsWithK
  | .enumV _ => .enumK
  | .notInV _ => .notInK
  | .enumClassV _ => .enumClassK

/-- `InstanceValidator.validate` (validator_type.py lines 457-500): no
`None` skip — `isinstance(None, cls)` is false, so a configured
instance check rejects `None` too. -/
def instanceValidatorValidate (cls : Option String) (value : PyValue)
    (field_name : String) : List VErr :=
  match cls with
  | Option.none => []
  | some c =>
    if (match value with | .model mc _ => mc == c | _ => false) then []
    else
      [⟨"Expected instance of " ++ c ++ ", got " ++ pyTypeName value ++
          " with value: " ++ getValueRepr value,
        some field_name, some value⟩]

/-- Run an explicitly attached validator's `validate`
(`validator_cls(*args, **kwargs).validate(...)`, core.py lines
381-388).  `OptionalValidator.validate` can raise; the type
validator's nested-model branch can raise; the rest return their
error lists. -/
def ValidatorSpec.run (env : Env) (spec : ValidatorSpec)
    (field_name : String) (value : PyValue) : Except PyErr (List VErr) :=
  match spec with
  | .optionalV b => optionalValidatorValidate b value field_name
  | .typeV expected => typeCheckErrors env expected field_name value
  | .instanceV cls => .ok (instanceValidatorValidate cls value field_name)
  | .minV v => .ok (v.validate value field_name)
  | .maxV v => .ok (v.validate value field_name)
  | .rangeV v => .ok (v.validate value field_name)
  | .minLengthV n => .ok (minLengthValidate n value field_name)
  | .maxLengthV n => .ok (maxLengthValidate n value field_name)
  | .lengthRangeV lo hi => .ok (lengthRangeValidate lo hi value field_name)
  | .patternV v => .ok (v.validate value field_name)
  | .containsV v => .ok (v.validate value field_name)
  | .startsWithV v => .ok (v.validate value field_name)
  | .endsWithV v => .ok (v.validate value field_name)
  | .enumV v => .ok (v.validate value field_name)
  | .notInV v => .ok (v.validate value field_name)
  | .enumClassV v => .ok (v.validate value field_name)

/-- `TypeValidator().default` (validator_type.py lines 338-390): the
expected type is taken from the wrapper's preserved return annotation
and checked with `validate`; a `-> None` annotation sets
`expected_type = None`, for which `validate` returns no errors. -/
def typeValidatorDefault (env : Env) (decl : FieldDecl)
    (field_name : String) (value : PyValue) : Except PyErr (List VErr) :=
  typeCheckErrors env decl.retAnn field_name value

/-- One registry kind's step of the default loop (core.py lines
431-448): `validator_instance = validator_cls()` — a `TypeError` for
every kind whose constructor has required arguments — then
`validator_instance.default(...)`.  Every `default` except the
optionality and type validators' is a no-op returning an empty
result. -/
def ValidatorKind.runDefault (env : Env) (kind : ValidatorKind)
    (decl : FieldDecl) (field_name : String) (value : PyValue) :
    Except PyErr (List VErr) :=
  match kind with
  | .optionalK => optionalValidatorDefault value field_name
  | .typeK => typeValidatorDefault env decl field_name value
  | .instanceK => .ok []
  | .enumK => .ok []
  | .notInK => .ok []
  | .minK | .maxK | .rangeK | .minLengthK | .maxLengthK
  | .lengthRangeK | .patternK | .containsK | .startsWithK
  | .endsWithK | .enumClassK =>
    .error (.typeError "__init__() missing required positional arguments")

/-- The explicit-validator loop (core.py lines 372-403): for each
registered kind whose class equals the one stored on the method, run
its `validate`; the errors are re-wrapped with the same message, field
and value (`source_info`/`parent_object` are diagnostics outside the
embedding). -/
def runExplicitLoop (env : Env) (registry : List ValidatorKind)
    (decl : FieldDecl) (field_name : String) (value : PyValue) :
    Except PyErr (List VErr) :=
  match registry with
  | [] => .ok []
  | k :: rest => do
    let headErrs ←
      match decl.explicit with
      | some spec =>
        if spec.kind = k then spec.run env field_name value else pure []
      | Option.none => pure []
    let restErrs ← runExplicitLoop env rest decl field_name value
    pure (headErrs ++ restErrs)

/-- The default loop (core.py lines 430-448): every registered kind
not just executed explicitly runs its `default`; the loop has no
exception handler, so a raising `default` (or a failing
`validator_cls()` instantiation) propagates. -/
def runDefaultLoop (env : Env) (registry : List ValidatorKind)
    (decl : FieldDecl) (field_name : String) (value : PyValue) :
    Except PyErr (List VErr) :=
  match registry with
  | [] => .ok []
  | k :: rest => do
    let headErrs ←
      if decl.explicit.map ValidatorSpec.kind = some k then pure []
      else k.runDefault env decl field_name value
    let restErrs ← runDefaultLoop env rest decl field_name value
    pure (headErrs ++ restErrs)

/-- The nested walker's error wrap for list/tuple elements (core.py
lines 464-475 and 556-567). -/
def wrapIndexed (field_name : String) (i : Nat) (msgPrefix : String)
    (e : VErr) : VErr :=
  ⟨msgPrefix ++ e.message,
    some (match e.field with
      | some f => field_name ++ "[" ++ toString i ++ "]." ++ f
      | Option.none => field_name ++ "[" ++ toString i ++ "]"),
    e.value⟩

/-- The nested walker's error wrap for dict values (lines 510-521). -/
def wrapKeyed (field_name : String) (k : String) (e : VErr) : VErr :=
  ⟨"Value for key '" ++ k ++ "': " ++ e.message,
    some (match e.field with
      | some f => field_name ++ "['" ++ k ++ "']." ++ f
      | Option.none => field_name ++ "['" ++ k ++ "']"),
    e.value⟩

/-- The list/set/tuple walker (core.py lines 450-494 and 541-585):
each element that is a model instance is validated with
`raise_exception=False` — which raises on an invalid element (the
returned result is always empty), so the index wrap below never fires;
the non-model `elif` tests `_return_type`, an attribute nothing in the
source ever sets, and never fires either. -/
def nestedWalkList (env : Env) (field_name : String)
    (items : List PyValue) (i : Nat) (msgPrefix : String) :
    Except PyErr (List VErr) :=
  match items with
  | [] => .ok []
  | item :: rest => do
    let headErrs ←
      match item with
      | .model icls idata => do
        let r ← ValidatedModel.validate env ⟨icls, some idata⟩ false
        pure (r.map (wrapIndexed field_name i (msgPrefix ++ toString i ++ ": ")))
      | _ => pure []
    let restErrs ← nestedWalkList env field_name rest (i + 1) msgPrefix
    pure (headErrs ++ restErrs)

/-- The dict walker (core.py lines 496-540), keyed variant of the
above. -/
def nestedWalkDict (env : Env) (field_name : String)
    (entries : List (String × PyValue)) : Except PyErr (List VErr) :=
  match entries with
  | [] => .ok []
  | (k, item) :: rest => do
    let headErrs ←
      match item with
      | .model icls idata => do
        let r ← ValidatedModel.validate env ⟨icls, some idata⟩ false
        pure (r.map (wrapKeyed field_name k))
      | _ => pure []
    let restErrs ← nestedWalkDict env field_name rest
    pure (headErrs ++ restErrs)

/-- The container dispatch of the nested walker (lines 450-585). -/
def nestedWalk (env : Env) (field_name : String) (value : PyValue) :
    Except PyErr (List VErr) :=
  match value with
  | .list xs => nestedWalkList env field_name xs 0 "Item at index "
  | .set xs => nestedWalkList env field_name xs 0 "Item at index "
  | .dict es => nestedWalkDict env field_name es
  | .tuple xs => nestedWalkList env field_name xs 0 "Tuple item at index "
  | _ => pure []

/-- `ValidatedModel._validate_field` (core.py lines 301-587), for a
field that resolves to a `@validate`-decorated method (the
`hasattr`/`_requires_validation` guards of lines 315-321 pass).
The custom-validation call of lines 405-424 is guarded by
`param_count > 1`, but `field_method` is the *bound* wrapper whose
signature is the single parameter `value`, so the method is never
called there and the `try/except` adds nothing. -/
def validateField (env : Env) (registry : List ValidatorKind)
    (decl : FieldDecl) (field_name : String) (value : PyValue) :
    Except PyErr (List VErr) := do
  -- lines 355-356: a truthy `_skip_validators` skips everything
  if decl.skip_validators then .ok []
  else do
    let explicitErrs ← runExplicitLoop env registry decl field_name value
    -- lines 426-428: any errors so far skip default validation
    if ¬ explicitErrs.isEmpty then .ok explicitErrs
    else do
      let defaultErrs ← runDefaultLoop env registry decl field_name value
      let nestedErrs ← nestedWalk env field_name value
      .ok (explicitErrs ++ defaultErrs ++ nestedErrs)

/-! ## Shared lemmas -/

/-- Every type check returns no errors on the value `None`
(validator_type.py line 90). -/
theorem typeCheckErrors_none (env : Env) (expected : Option TypeAnnot)
    (f : String) : typeCheckErrors env expected f .none = .ok [] := by
  cases expected with
  | none => rw [typeCheckErrors.eq_def]
  | some ann => rw [typeCheckErrors.eq_def]; simp [PyValue.isNone]

mutual

/-- Python `==` is reflexive on the embedded value domain. -/
theorem pyEqb_refl : (v : PyValue) → pyEqb v v = true
  | .none => rfl
  | .bool b => by simp [pyEqb, PyValue.isNumber]
  | .int n => by simp [pyEqb, PyValue.isNumber]
  | .str s => by simp [pyEqb]
  | .list xs => by simp [pyEqb, pyEqbList_refl xs]
  | .tuple xs => by simp [pyEqb, pyEqbList_refl xs]
  | .set xs => by simp [pyEqb, pyEqbList_refl xs]
  | .dict es => by simp [pyEqb, pyEqbEntries_refl es]
  | .model c d => by simp [pyEqb, pyEqbEntries_refl d]

theorem pyEqbList_refl : (l : List PyValue) → pyEqbList l l = true
  | [] => rfl
  | x :: rest => by simp [pyEqbList, pyEqb_refl x, pyEqbList_refl rest]

theorem pyEqbEntries_refl :
    (l : List (String × PyValue)) → pyEqbEntries l l = true
  | [] => rfl
  | (k, v) :: rest => by
      simp [pyEqbEntries, pyEqb_refl v, pyEqbEntries_refl rest]

end

/-- If every possible explicit attachment validates cleanly, the
explicit-validator loop contributes no errors. -/
theorem runExplicitLoop_clean (env : Env) (registry : List ValidatorKind)
    (decl : FieldDecl) (fname : String) (v : PyValue)
    (hexp : ∀ spec, decl.explicit = some spec →
      spec.run env fname v = .ok []) :
    runExplicitLoop env registry decl fname v = .ok [] := by
  induction registry with
  | nil => rfl
  | cons k rest ih =>
    rw [runExplicitLoop]
    cases hD : decl.explicit with
    | none => simp [hD, Bind.bind, Except.bind, pure, Except.pure, ih]
    | some spec =>
      by_cases hk : spec.kind = k
      · simp [hD, hk, hexp spec hD, Bind.bind, Except.bind, pure,
          Except.pure, ih]
      · simp [hD, hk, Bind.bind, Except.bind, pure, Except.pure, ih]

/-- If the attached kind does not occur in the registry, the explicit
loop contributes no errors. -/
theorem runExplicitLoop_absent (env : Env) (registry : List ValidatorKind)
    (decl : FieldDecl) (fname : String) (v : PyValue) (spec : ValidatorSpec)
    (hspec : decl.explicit = some spec)
    (hcount : registry.count spec.kind = 0) :
    runExplicitLoop env registry decl fname v = .ok [] := by
  induction registry with
  | nil => rfl
  | cons k rest ih =>
    rw [runExplicitLoop]
    rw [List.count_cons] at hcount
    by_cases hk : spec.kind = k
    · simp [hk] at hcount
    · have : List.count spec.kind rest = 0 := by
        by_cases hkk : k = spec.kind
        · exact absurd hkk.symm hk
        · simpa [hkk] using hcount
      simp [hspec, hk, Bind.bind, Except.bind, pure, Except.pure, ih this]

/-- With the attached kind registered exactly once, the explicit loop
returns exactly what the attached validator's `validate` returned. -/
theorem runExplicitLoop_single (env : Env) (registry : List ValidatorKind)
    (decl : FieldDecl) (fname : String) (v : PyValue) (spec : ValidatorSpec)
    (errs : List VErr)
    (hspec : decl.explicit = some spec)
    (hcount : registry.count spec.kind = 1)
    (hrun : spec.run env fname v = .ok errs) :
    runExplicitLoop env registry decl fname v = .ok errs := by
  induction registry with
  | nil => simp at hcount
  | cons k rest ih =>
    rw [runExplicitLoop]
    rw [List.count_cons] at hcount
    by_cases hk : spec.kind = k
    · have hrest : List.count spec.kind rest = 0 := by
        simp [← hk] at hcount
        omega
      simp [hspec, hk, hrun, Bind.bind, Except.bind, pure, Except.pure,
        runExplicitLoop_absent env rest decl fname v spec hspec hrest]
    · have : List.count spec.kind rest = 1 := by
        by_cases hkk : k = spec.kind
        · exact absurd hkk.symm hk
        · simpa [hkk] using hcount
      simp [hspec, hk, Bind.bind, Except.bind, pure, Except.pure, ih this]

/-- The default loop behaves as if the attached kind were removed from
the registry: the same-kind entries are exactly the skipped ones. -/
theorem runDefaultLoop_filter (env : Env) (registry : List ValidatorKind)
    (decl : FieldDecl) (fname : String) (v : PyValue) (spec : ValidatorSpec)
    (hspec : decl.explicit = some spec) :
    runDefaultLoop env registry decl fname v =
      runDefaultLoop env (registry.filter fun k => ¬ k = spec.kind)
        decl fname v := by
  induction registry with
  | nil => rfl
  | cons k rest ih =>
    by_cases hk : k = spec.kind
    · have hski : decl.explicit.map ValidatorSpec.kind = some k := by
        simp [hspec, hk]
      have hfil : List.filter (fun x => decide ¬ x = spec.kind) (k :: rest) =
          List.filter (fun x => decide ¬ x = spec.kind) rest := by
        simp [List.filter_cons, hk]
      rw [hfil, ← ih, runDefaultLoop]
      cases hR : runDefaultLoop env rest decl fname v <;>
        simp [hski, hR, Bind.bind, Except.bind, pure, Except.pure]
    · have hski : ¬ (decl.explicit.map ValidatorSpec.kind = some k) := by
        simp [hspec]
        exact fun hkk => hk hkk.symm
      have hfil : List.filter (fun x => decide ¬ x = spec.kind) (k :: rest) =
          k :: List.filter (fun x => decide ¬ x = spec.kind) rest := by
        simp [List.filter_cons]
        exact hk
      rw [hfil, runDefaultLoop]
      conv_rhs => rw [runDefaultLoop]
      rw [← ih]

/-! ## Theorems for the claims -/

/-- C4: for every numeric bound validator (min, max and range)
configured with an inclusive bound, validating the boundary value
itself produces no error; configured with an exclusive bound,
validating the boundary value produces an error.  (For the range
validator the bounds are taken well-formed, `a ≤ b`.) -/
theorem C4_numeric_boundary (a b : Int) (f : String) (hab : a ≤ b) :
    (MinValidator.validate ⟨a, true⟩ (.int a) f = [] ∧
     MinValidator.validate ⟨a, false⟩ (.int a) f ≠ []) ∧
    (MaxValidator.validate ⟨b, true⟩ (.int b) f = [] ∧
     MaxValidator.validate ⟨b, false⟩ (.int b) f ≠ []) ∧
    (RangeValidator.validate ⟨a, b, true, true⟩ (.int a) f = [] ∧
     RangeValidator.validate ⟨a, b, true, true⟩ (.int b) f = [] ∧
     RangeValidator.validate ⟨a, b, false, true⟩ (.int a) f ≠ [] ∧
     RangeValidator.validate ⟨a, b, true, false⟩ (.int b) f ≠ []) := by
  refine ⟨⟨?_, ?_⟩, ⟨?_, ?_⟩, ?_, ?_, ?_, ?_⟩ <;>
    simp [MinValidator.validate, MaxValidator.validate,
      RangeValidator.validate, PyValue.isNone, PyValue.isNumber,
      PyValue.asInt] <;> omega

/-- C4 witness: the theorem applied at the concrete bounds 3 ≤ 5. -/
theorem C4_numeric_boundary_witness :
    (MinValidator.validate ⟨3, true⟩ (.int 3) "f" = [] ∧
     MinValidator.validate ⟨3, false⟩ (.int 3) "f" ≠ []) ∧
    (MaxValidator.validate ⟨5, true⟩ (.int 5) "f" = [] ∧
     MaxValidator.validate ⟨5, false⟩ (.int 5) "f" ≠ []) ∧
    (RangeValidator.validate ⟨3, 5, true, true⟩ (.int 3) "f" = [] ∧
     RangeValidator.validate ⟨3, 5, true, true⟩ (.int 5) "f" = [] ∧
     RangeValidator.validate ⟨3, 5, false, true⟩ (.int 3) "f" ≠ [] ∧
     RangeValidator.validate ⟨3, 5, true, false⟩ (.int 5) "f" ≠ []) :=
  C4_numeric_boundary 3 5 "f" (by norm_num)

/-- C9: every built-in rule validator's explicit `validate` — numeric
bounds, string lengths, pattern, substring, membership and type —
returns a result with no errors on the value `None`, whatever its
configuration. -/
theorem C9_explicit_validators_skip_none (f : String)
    (mn : MinValidator) (mx : MaxValidator) (rg : RangeValidator)
    (n m lo hi : Int) (pv : PatternValidator) (cv : ContainsValidator)
    (sw : StartsWithValidator) (ew : EndsWithValidator)
    (en : EnumValidator) (ni : NotInValidator) (ec : EnumClassValidator)
    (env : Env) (expected : Option TypeAnnot) :
    mn.validate .none f = [] ∧
    mx.validate .none f = [] ∧
    rg.validate .none f = [] ∧
    minLengthValidate n .none f = [] ∧
    maxLengthValidate m .none f = [] ∧
    lengthRangeValidate lo hi .none f = [] ∧
    pv.validate .none f = [] ∧
    cv.validate .none f = [] ∧
    sw.validate .none f = [] ∧
    ew.validate .none f = [] ∧
    en.validate .none f = [] ∧
    ni.validate .none f = [] ∧
    ec.validate .none f = [] ∧
    typeCheckErrors env expected f .none = .ok [] := by
  refine ⟨?_, ?_, ?_, ?_, ?_, ?_, ?_, ?_, ?_, ?_, ?_, ?_, ?_, ?_⟩
  · simp [MinValidator.validate, PyValue.isNone]
  · simp [MaxValidator.validate, PyValue.isNone]
  · simp [RangeValidator.validate, PyValue.isNone]
  · simp [minLengthValidate, PyValue.isNone]
  · simp [maxLengthValidate, PyValue.isNone]
  · simp [lengthRangeValidate, PyValue.isNone]
  · simp [PatternValidator.validate, PyValue.isNone]
  · simp [ContainsValidator.validate, PyValue.isNone]
  · simp [StartsWithValidator.validate, PyValue.isNone]
  · simp [EndsWithValidator.validate, PyValue.isNone]
  · cases h : en.allowed_values <;>
      simp [EnumValidator.validate, h, PyValue.isNone]
  · simp [NotInValidator.validate, PyValue.isNone]
  · simp [EnumClassValidator.validate, PyValue.isNone]
  · cases expected with
    | none => rw [typeCheckErrors.eq_def]
    | some ann => rw [typeCheckErrors.eq_def]; simp [PyValue.isNone]

/-! ### Concrete model classes used by the claim theorems -/

/-- A class `P` with one field `age : int`. -/
def envP : Env := [("P", [("age", ({ retAnn := some .intT } : FieldDecl))])]

/-- A class `M` with two `int` fields `a` and `b`. -/
def envM : Env :=
  [("M", [("a", ({ retAnn := some .intT } : FieldDecl)),
          ("b", ({ retAnn := some .intT } : FieldDecl))])]

/-- A nested-model setup: `Address` with `street : str`; `Owner` with
`items : List[Address]`; `Holder` with `addr : Address`. -/
def envNested : Env :=
  [("Address", [("street", ({ retAnn := some .strT } : FieldDecl))]),
   ("Owner",
    [("items",
      ({ retAnn := some (.listT (some (.modelT "Address"))) } : FieldDecl))]),
   ("Holder", [("addr", ({ retAnn := some (.modelT "Address") } : FieldDecl))])]

/-- C1: the claim says `validate(raise_exception=False)` never raises
and returns a `ValidationResult` even on invalid field values.  The
code re-raises the first field failure regardless of the flag
(core.py line 612): on a `P` instance whose stored `age` is the
string `"x"`, the non-raising call raises the field's
`ValidationError`. -/
theorem C1_nonraising_validate_raises :
    ValidatedModel.validate envP ⟨"P", some [("age", .str "x")]⟩ false =
      .error (.validation ⟨"Expected type int, got str with value: x",
        some "age", some (.str "x")⟩) := by
  simp [ValidatedModel.validate, validateFields.eq_def, wrapperCheck.eq_def,
    typeCheckErrors.eq_def, Env.findClass, ModelClass.findField,
    PyValue.isNone, isOfType, getValueRepr, pyStr, pyRepr, pyTypeName,
    TypeAnnot.typeName, envP, isOptionalField, optionalCheck,
    optionalValidatorValidate, PyValue.isNumber]
  rfl

/-- C2: the claim says validation checks every field and aggregates at
least one error per invalid field into the returned result.  In the
code the result is created empty and never appended to: with the two
`int` fields of `M` both holding strings, `validate` raises the first
field's error alone (second conjunct), and whenever `validate` does
return, the returned result is empty (third conjunct) — aggregation
never happens. -/
theorem C2_no_aggregation :
    (ValidatedModel.validate envM
        ⟨"M", some [("a", .str "x"), ("b", .str "y")]⟩ true =
      .error (.validation ⟨"Expected type int, got str with value: x",
        some "a", some (.str "x")⟩)) ∧
    (∀ (env : Env) (inst : Instance) (r : Bool) (res : ValidationResult),
      ValidatedModel.validate env inst r = .ok res → res = []) := by
  constructor
  · simp [ValidatedModel.validate, validateFields.eq_def, wrapperCheck.eq_def,
      typeCheckErrors.eq_def, Env.findClass, ModelClass.findField,
      PyValue.isNone, isOfType, getValueRepr, pyStr, pyRepr, pyTypeName,
      TypeAnnot.typeName, envM, isOptionalField, optionalCheck,
      optionalValidatorValidate, PyValue.isNumber]
    rfl
  · intro env inst r res h
    match hD : inst.dataAttr with
    | Option.none => simp [ValidatedModel.validate, hD] at h
    | some data =>
      rw [ValidatedModel.validate] at h
      simp only [hD] at h
      cases hv : validateFields env (env.findClass inst.cls) data with
      | error e => simp [hv, Bind.bind, Except.bind] at h
      | ok u =>
        simp [hv, Bind.bind, Except.bind, List.isEmpty] at h
        exact h

/-- C2 witness for the quantified conjunct: on a valid `P` instance
`validate` returns, and the returned result is empty. -/
theorem C2_no_aggregation_witness :
    ([] : ValidationResult) = [] :=
  C2_no_aggregation.2 envP ⟨"P", some [("age", .int 5)]⟩ true []
    (by
      simp [ValidatedModel.validate, validateFields.eq_def,
        wrapperCheck.eq_def, typeCheckErrors.eq_def, Env.findClass,
        ModelClass.findField, PyValue.isNone, isOfType, isOptionalField,
        optionalCheck, optionalValidatorValidate, PyValue.isNumber, envP]
      rfl)

/-- C3: the claim says `new(m)` equals keyword construction.  On the
mapping path `__init__` runs `self = self.from_dict(args[0]); return`
(core.py line 260), which discards the validated instance and leaves
`self` without a `_data` attribute: the mapping-built instance (first
conjunct) has no data, and `to_dict`/`validate` on it raise
`AttributeError` (third, fourth), while keyword construction stores
the data (second) and works (fifth). -/
theorem C3_mapping_constructor_broken :
    (ValidatedModel.init envP "P" (some [("age", .int 5)]) [] =
      .ok ⟨"P", Option.none⟩) ∧
    (ValidatedModel.init envP "P" Option.none [("age", .int 5)] =
      .ok ⟨"P", some [("age", .int 5)]⟩) ∧
    (ValidatedModel.to_dict ⟨"P", Option.none⟩ =
      .error (.attributeError "_data")) ∧
    (ValidatedModel.validate envP ⟨"P", Option.none⟩ false =
      .error (.attributeError "_data")) ∧
    (ValidatedModel.to_dict ⟨"P", some [("age", .int 5)]⟩ =
      .ok [("age", .int 5)]) := by
  refine ⟨?_, ?_, rfl, rfl, ?_⟩
  · simp [ValidatedModel.init, ValidatedModel.from_dict, initKwargs.eq_def,
      validateFields.eq_def, wrapperCheck.eq_def, typeCheckErrors.eq_def,
      Env.findClass, ModelClass.findField, PyValue.isNone, isOfType,
      isOptionalField, optionalCheck, optionalValidatorValidate,
      PyValue.isNumber, envP]
    rfl
  · simp [ValidatedModel.init, initKwargs.eq_def, validateFields.eq_def,
      wrapperCheck.eq_def, typeCheckErrors.eq_def, Env.findClass,
      ModelClass.findField, PyValue.isNone, isOfType, isOptionalField,
      optionalCheck, optionalValidatorValidate, PyValue.isNumber, envP]
    rfl
  · simp [ValidatedModel.to_dict, toDictEntries, toDictField]

/-- C7: the claim says validating an owner whose list field holds one
invalid nested model yields exactly one error with path
`items[0].street` and an `"Item at index 0: "` message prefix.  The
code instead raises the nested field's own unwrapped error: the
element's `validate(raise_exception=False)` raises (core.py line 612)
inside the type check, and the index-wrapping walker never runs. -/
theorem C7_nested_error_not_wrapped :
    ValidatedModel.validate envNested
      ⟨"Owner", some [("items", .list [.model "Address" [("street", .int 5)]])]⟩
      true =
    .error (.validation ⟨"Expected type str, got int with value: 5",
      some "street", some (.int 5)⟩) := by
  simp [ValidatedModel.validate, validateFields.eq_def, wrapperCheck.eq_def,
    typeCheckErrors.eq_def, typeCheckList.eq_def, Env.findClass,
    ModelClass.findField, PyValue.isNone, isOfType, getValueRepr, pyStr,
    pyRepr, pyTypeName, TypeAnnot.typeName, TypeAnnot.isAny, envNested,
    isOptionalField, optionalCheck, optionalValidatorValidate,
    PyValue.isNumber]
  rfl

/-- C8 counterexample: a `Holder` instance with a nested `Address`
model constructs validly (first conjunct) and serializes the nested
model to a plain dict (second), but reconstructing from that mapping
fails — the field's type check rejects the dict where the claim
asserts `from_dict (to_dict x)` succeeds and equals `x` (third). -/
theorem C8_counterexample :
    (ValidatedModel.init envNested "Holder" Option.none
        [("addr", .model "Address" [("street", .str "a")])] =
      .ok ⟨"Holder", some [("addr", .model "Address" [("street", .str "a")])]⟩) ∧
    (ValidatedModel.to_dict
        ⟨"Holder", some [("addr", .model "Address" [("street", .str "a")])]⟩ =
      .ok [("addr", .dict [("street", .str "a")])]) ∧
    (ValidatedModel.from_dict envNested "Holder"
        [("addr", .dict [("street", .str "a")])] =
      .error (.validation
        ⟨"Expected type Address, got dict with value: \x7b'street': 'a'\x7d",
          some "addr", some (.dict [("street", .str "a")])⟩)) := by
  refine ⟨?_, ?_, ?_⟩
  · simp [ValidatedModel.init, initKwargs.eq_def, validateFields.eq_def,
      wrapperCheck.eq_def, typeCheckErrors.eq_def, Env.findClass,
      ModelClass.findField, PyValue.isNone, isOfType, isOptionalField,
      optionalCheck, optionalValidatorValidate, envNested]
    rfl
  · simp [ValidatedModel.to_dict, toDictEntries, toDictField]
  · simp [ValidatedModel.from_dict, initKwargs.eq_def, validateFields.eq_def,
      wrapperCheck.eq_def, typeCheckErrors.eq_def, Env.findClass,
      ModelClass.findField, PyValue.isNone, isOfType, isOptionalField,
      optionalCheck, optionalValidatorValidate, envNested, getValueRepr,
      pyStr, pyRepr, pyReprEntries, pyTypeName, TypeAnnot.typeName]
    rfl

/-- Counting a filter-mapped enumeration: one output per element
satisfying the predicate, whatever the start index. -/
theorem length_filterMap_enumFrom {α β : Type} (P : α → Prop)
    [DecidablePred P] (g : Nat × α → β) :
    ∀ (l : List α) (n : Nat),
      ((List.enumFrom n l).filterMap fun p =>
        if P p.2 then some (g p) else Option.none).length =
      (l.filter fun a => decide (P a)).length := by
  intro l
  induction l with
  | nil => intro n; rfl
  | cons a rest ih =>
    intro n
    by_cases h : P a <;>
      simp [List.enumFrom, List.filterMap_cons, h, List.filter_cons, ih]

/-- C6: for a declared tuple type, an arity mismatch is exactly one
arity error and no per-position errors; on matching arity there is one
error per position whose element fails its declared element type
(positions declared `Any` match everything). -/
theorem C6_tuple_arity (env : Env) (elems : List TypeAnnot)
    (xs : List PyValue) (fname : String) (hne : elems ≠ []) :
    (xs.length ≠ elems.length →
      typeCheckErrors env (some (.tupleT elems)) fname (.tuple xs) =
        .ok [⟨"Expected tuple of length " ++ toString elems.length ++
            ", got length " ++ toString xs.length,
          some fname, some (.tuple xs)⟩]) ∧
    (xs.length = elems.length →
      ∃ errs,
        typeCheckErrors env (some (.tupleT elems)) fname (.tuple xs) =
          .ok errs ∧
        errs.length = ((xs.zip elems).filter fun p =>
          !p.2.isAny && !isOfType p.1 p.2).length) := by
  obtain ⟨e0, es, rfl⟩ := List.exists_cons_of_ne_nil hne
  constructor
  · intro hlen
    rw [typeCheckErrors.eq_def]
    simp [PyValue.isNone, List.isEmpty, hlen]
    intro h
    exact absurd h (by simpa using hlen)
  · intro hlen
    rw [typeCheckErrors.eq_def]
    simp [PyValue.isNone, List.isEmpty, hlen, List.enum]
    rw [length_filterMap_enumFrom
      (fun (p : PyValue × TypeAnnot) =>
        p.2.isAny = false ∧ isOfType p.1 p.2 = false)
      (fun p => (⟨"Tuple item at index " ++ toString p.1 ++
          " expected to be " ++ p.2.2.typeName ++ ", got " ++
          pyTypeName p.2.1 ++ " with value: " ++ getValueRepr p.2.1,
        some fname, some p.2.1⟩ : VErr))
      (xs.zip (e0 :: es)) 0]
    have hfun : (fun (a : PyValue × TypeAnnot) =>
        decide (a.2.isAny = false ∧ isOfType a.1 a.2 = false)) =
        (fun p => !p.2.isAny && !isOfType p.1 p.2) := by
      funext p
      cases hx : p.2.isAny <;> cases hy : isOfType p.1 p.2 <;>
        simp [hx, hy]
    rw [hfun]

/-- C6 witness: tuple type `(str, int)`; the one-element tuple gets
exactly the arity error, and `("a", "b")` gets one error (position 1
mismatches). -/
theorem C6_tuple_arity_witness :
    (typeCheckErrors [] (some (.tupleT [.strT, .intT])) "f"
        (.tuple [.str "a"]) =
      .ok [⟨"Expected tuple of length 2, got length 1",
        some "f", some (.tuple [.str "a"])⟩]) ∧
    (∃ errs,
      typeCheckErrors [] (some (.tupleT [.strT, .intT])) "f"
          (.tuple [.str "a", .str "b"]) = .ok errs ∧
      errs.length = 1) := by
  constructor
  · exact (C6_tuple_arity [] [.strT, .intT] [.str "a"] "f" (by simp)).1
      (by simp)
  · obtain ⟨errs, he, hl⟩ :=
      (C6_tuple_arity [] [.strT, .intT] [.str "a", .str "b"] "f"
        (by simp)).2 (by simp)
    refine ⟨errs, he, ?_⟩
    rw [hl]
    rfl

/-! ### C5: explicit attachment vs. default checks -/

/-- A registry holding the type, instance, optionality and min kinds
(`VALIDATORS` itself is only populated by the `@validator` decorator,
which no class under `validators/core/` carries). -/
def regC5 : List ValidatorKind := [.typeK, .instanceK, .optionalK, .minK]

/-- A field `-> int` with an explicitly attached `MinValidator(10)`. -/
def declC5 : FieldDecl :=
  { retAnn := some .intT, explicit := some (.minV ⟨10, true⟩) }

/-- A field `-> int` with an explicitly attached `MinValidator(0)`. -/
def declC5w : FieldDecl :=
  { retAnn := some .intT, explicit := some (.minV ⟨0, true⟩) }

/-- C5 counterexample: the claim says the other kinds' default checks
run even when the explicitly attached kind's check fails.  With
`MinValidator(10)` attached and the value `"x"`, the explicit check
fails, `_validate_field` returns only that failure (first conjunct) —
yet the type kind's default check on the same field and value reports
an error of its own (second conjunct), which is absent: defaults were
skipped wholesale. -/
theorem C5_counterexample :
    (validateField [] regC5 declC5 "f" (.str "x") =
      .ok [⟨"Expected a number for field 'f', got str",
        some "f", some (.str "x")⟩]) ∧
    (ValidatorKind.runDefault [] .typeK declC5 "f" (.str "x") =
      .ok [⟨"Expected type int, got str with value: x",
        some "f", some (.str "x")⟩]) := by
  constructor
  · simp [validateField, regC5, declC5, runExplicitLoop,
      ValidatorSpec.run, ValidatorSpec.kind, MinValidator.validate,
      PyValue.isNone, PyValue.isNumber, pyTypeName,
      Bind.bind, Except.bind, pure, Except.pure]
  · simp [ValidatorKind.runDefault, typeValidatorDefault, declC5,
      typeCheckErrors.eq_def, PyValue.isNone, isOfType, getValueRepr,
      pyStr, pyRepr, pyTypeName, TypeAnnot.typeName]
    rfl

/-- C5 amended: an explicitly attached kind suppresses that same
kind's default check; the *other* kinds' default checks run only when
the attached kind's check reported no errors (the in-body custom
validation never runs from `_validate_field`, its arity guard fails
on the bound wrapper) — when the explicit check reports any failure,
every default check is skipped and only the explicit errors are
returned. -/
theorem C5_explicit_suppression (env : Env) (registry : List ValidatorKind)
    (decl : FieldDecl) (fname : String) (v : PyValue) (spec : ValidatorSpec)
    (hspec : decl.explicit = some spec)
    (hskip : decl.skip_validators = false)
    (hcount : registry.count spec.kind = 1) :
    (∀ errs, spec.run env fname v = .ok errs → errs ≠ [] →
      validateField env registry decl fname v = .ok errs) ∧
    (spec.run env fname v = .ok [] →
      validateField env registry decl fname v = do
        let d ← runDefaultLoop env
          (registry.filter fun k => ¬ k = spec.kind) decl fname v
        let n ← nestedWalk env fname v
        .ok (d ++ n)) := by
  constructor
  · intro errs hrun hnil
    have hex := runExplicitLoop_single env registry decl fname v spec errs
      hspec hcount hrun
    simp [validateField, hskip, hex, hnil, Bind.bind, Except.bind,
      pure, Except.pure, List.isEmpty_eq_false.mpr hnil]
  · intro hrun
    have hex := runExplicitLoop_single env registry decl fname v spec []
      hspec hcount hrun
    have hfil := runDefaultLoop_filter env registry decl fname v spec hspec
    simp only [validateField, hskip, hex, hfil]
    cases hd : runDefaultLoop env
        (registry.filter fun k => ¬ k = spec.kind) decl fname v with
    | error e => simp [hd, Bind.bind, Except.bind, pure, Except.pure]
    | ok d =>
      cases hn : nestedWalk env fname v with
      | error e => simp [hd, hn, Bind.bind, Except.bind, pure, Except.pure]
      | ok n => simp [hd, hn, Bind.bind, Except.bind, pure, Except.pure]

/-- C5 witness: with `MinValidator(0)` attached and the clean value
`5`, the amended theorem instantiates to: the result is the default
loop over the registry minus the min kind, then the nested walk. -/
theorem C5_explicit_suppression_witness :
    validateField [] regC5 declC5w "f" (.int 5) = (do
      let d ← runDefaultLoop [] (regC5.filter fun k => ¬ k = ValidatorKind.minK) declC5w "f" (.int 5)
      let n ← nestedWalk [] "f" (.int 5)
      Except.ok (d ++ n)) :=
  (C5_explicit_suppression [] regC5 declC5w "f" (.int 5) (.minV ⟨0, true⟩)
      rfl rfl (by decide)).2
    (by simp [ValidatorSpec.run, MinValidator.validate, PyValue.isNone,
      PyValue.isNumber, PyValue.asInt])

/-! ### C8 amended: the round trip on model-free data -/

/-- C8 amended: for a validly constructed instance whose stored data
is a fixed point of the `to_dict` conversion (no model value stored
directly or as a direct container element), reconstruction from the
mapping form succeeds with an instance equal to the original, and the
two compare equal under `__eq__`. -/
theorem C8_roundtrip_model_free (env : Env) (clsName : String)
    (data : List (String × PyValue)) (inst : Instance)
    (h1 : ValidatedModel.init env clsName Option.none data = .ok inst)
    (h2 : toDictEntries data = data) :
    (ValidatedModel.to_dict inst).bind
      (fun d => ValidatedModel.from_dict env clsName d) = .ok inst ∧
    ValidatedModel.eq inst inst = .ok true := by
  simp only [ValidatedModel.init] at h1
  simp at h1
  rw [initKwargs.eq_def] at h1
  cases hv : validateFields env (env.findClass clsName) data with
  | error e => simp [hv, Bind.bind, Except.bind] at h1
  | ok u =>
    simp [hv, Bind.bind, Except.bind, pure, Except.pure] at h1
    subst h1
    constructor
    · simp [ValidatedModel.to_dict, h2, ValidatedModel.from_dict,
        Bind.bind, Except.bind]
      rw [initKwargs.eq_def]
      simp [hv, Bind.bind, Except.bind, pure, Except.pure]
    · simp [ValidatedModel.eq, ValidatedModel.to_dict,
        Bind.bind, Except.bind, pure, Except.pure, pyEqbEntries_refl]

/-- C8 witness: the amended round trip at the concrete valid `P`
instance with `age = 5`. -/
theorem C8_roundtrip_model_free_witness :
    (ValidatedModel.to_dict ⟨"P", some [("age", PyValue.int 5)]⟩).bind
      (fun d => ValidatedModel.from_dict envP "P" d) =
      .ok ⟨"P", some [("age", PyValue.int 5)]⟩ ∧
    ValidatedModel.eq ⟨"P", some [("age", PyValue.int 5)]⟩
      ⟨"P", some [("age", PyValue.int 5)]⟩ = .ok true :=
  C8_roundtrip_model_free envP "P" [("age", .int 5)]
    ⟨"P", some [("age", .int 5)]⟩
    (by
      simp [ValidatedModel.init, initKwargs.eq_def, validateFields.eq_def,
        wrapperCheck.eq_def, typeCheckErrors.eq_def, Env.findClass,
        ModelClass.findField, PyValue.isNone, isOfType, isOptionalField,
        optionalCheck, optionalValidatorValidate, PyValue.isNumber, envP]
      rfl)
    rfl

/-! ### C10: the default optionality check raises on None -/

/-- The built-in catalog in its import order
(validators/__init__.py), as `VALIDATORS` would hold it if the
classes were registered. -/
def intendedRegistry : List ValidatorKind :=
  [.typeK, .instanceK, .optionalK, .minLengthK, .maxLengthK,
   .lengthRangeK, .patternK, .containsK, .startsWithK, .endsWithK,
   .minK, .maxK, .rangeK, .enumK, .notInK, .enumClassK]

/-- C10: `OptionalValidator.default` raises a `ValidationError` on a
`None` value instead of returning a failing result (first conjunct),
and because the default-check loop of `_validate_field` has no
exception handler, a `None` value on a field not explicitly marked
optional escapes `_validate_field` as that raised exception rather
than joining the aggregated result (second conjunct; any explicitly
attached rule is assumed to pass on `None`, which every rule validator
except the optionality and instance kinds does). -/
theorem C10_default_none_raises (env : Env) (decl : FieldDecl)
    (fname : String)
    (hskip : decl.skip_validators = false)
    (hnotopt : decl.explicit.map ValidatorSpec.kind ≠ some .optionalK)
    (hexp : ∀ spec, decl.explicit = some spec →
      spec.run env fname .none = .ok []) :
    (optionalValidatorDefault .none fname =
      .error (.validation
        ⟨"Value is not optional by default and was found to be None",
          some fname, some .none⟩)) ∧
    (validateField env intendedRegistry decl fname .none =
      .error (.validation
        ⟨"Value is not optional by default and was found to be None",
          some fname, some .none⟩)) := by
  refine ⟨rfl, ?_⟩
  have hex := runExplicitLoop_clean env intendedRegistry decl fname .none hexp
  have htype :
      (if decl.explicit.map ValidatorSpec.kind = some ValidatorKind.typeK
        then (pure [] : Except PyErr (List VErr))
        else ValidatorKind.runDefault env .typeK decl fname .none) =
      .ok [] := by
    by_cases h : decl.explicit.map ValidatorSpec.kind = some ValidatorKind.typeK <;>
      simp [h, ValidatorKind.runDefault, typeValidatorDefault,
        typeCheckErrors_none, pure, Except.pure]
  have hinst :
      (if decl.explicit.map ValidatorSpec.kind = some ValidatorKind.instanceK
        then (pure [] : Except PyErr (List VErr))
        else ValidatorKind.runDefault env .instanceK decl fname .none) =
      .ok [] := by
    by_cases h : decl.explicit.map ValidatorSpec.kind = some ValidatorKind.instanceK <;>
      simp [h, ValidatorKind.runDefault, pure, Except.pure]
  have hloop : runDefaultLoop env intendedRegistry decl fname .none =
      .error (.validation
        ⟨"Value is not optional by default and was found to be None",
          some fname, some .none⟩) := by
    rw [intendedRegistry, runDefaultLoop, runDefaultLoop, runDefaultLoop]
    simp [htype, hinst, hnotopt, ValidatorKind.runDefault,
      optionalValidatorDefault, PyValue.isNone, typeValidatorDefault,
      typeCheckErrors_none, Bind.bind, Except.bind, pure, Except.pure]
  simp [validateField, hskip, hex, hloop, List.isEmpty,
    Bind.bind, Except.bind, pure, Except.pure]

/-- C10 witness: a plain `-> int` field with no explicit attachment
and the value `None`. -/
theorem C10_default_none_raises_witness :
    validateField [] intendedRegistry
      ({ retAnn := some .intT } : FieldDecl) "age" .none =
    .error (.validation
      ⟨"Value is not optional by default and was found to be None",
        some "age", some .none⟩) :=
  (C10_default_none_raises [] ({ retAnn := some .intT } : FieldDecl) "age"
    rfl (by simp) (by intro spec h; simp at h)).2

end Uhm
